import Mathlib

/-
Verification of the real-time transcription session manager
(src/indexhighsamp.js, src/indexbefore.js).

The JavaScript is embedded shallowly: the mutable fields of the
SpeechToText class become Lean structures, each event handler and method
becomes a pure state-transition function, and console/process effects are
recorded as explicit counters or output lists on the state.  Numbers held
in the statistics fields are integers (millisecond durations produced by
differencing Date.now values); the numeric average is modelled over the
rationals, the exact value of sum / count that the code computes before
string formatting (toFixed is presentation only and not modelled).
-/

namespace Beambell

/-- Latency statistics fields of SpeechToText
(indexhighsamp.js lines 19-21): processingTimes array,
totalProcessingTime running sum, utteranceCount counter. -/
structure Stats where
  processingTimes : List Int
  totalProcessingTime : Int
  utteranceCount : Nat
deriving Repr, DecidableEq

/-- Constructor initialisation of the statistics fields
(indexhighsamp.js lines 19-21): empty array, zero sum, zero count. -/
def Stats.init : Stats :=
  { processingTimes := [], totalProcessingTime := 0, utteranceCount := 0 }

/-- updateProcessingStats (indexhighsamp.js lines 48-55):
only when processingTime > 0, push onto the array, add to the sum and
increment the count; otherwise nothing changes. -/
def updateProcessingStats (s : Stats) (processingTime : Int) : Stats :=
  if 0 < processingTime then
    { processingTimes := s.processingTimes ++ [processingTime],
      totalProcessingTime := s.totalProcessingTime + processingTime,
      utteranceCount := s.utteranceCount + 1 }
  else
    s

/-- getAverageProcessingTime (indexhighsamp.js lines 38-42), numeric value:
0 when utteranceCount is 0, otherwise totalProcessingTime / utteranceCount
(the const average of line 40, before string formatting). -/
def getAverageProcessingTime (s : Stats) : Rat :=
  if s.utteranceCount = 0 then 0
  else (s.totalProcessingTime : Rat) / (s.utteranceCount : Rat)

/-- Recording a whole sequence of durations through updateProcessingStats,
starting from the constructor state. -/
def recordAll (D : List Int) : Stats :=
  D.foldl updateProcessingStats Stats.init

/-- The LatencyStats invariant of the spec: count equals the length of the
sequence, sum equals its arithmetic sum, and every recorded duration is
strictly positive. -/
def StatsInvariant (s : Stats) : Prop :=
  s.utteranceCount = s.processingTimes.length ∧
  s.totalProcessingTime = s.processingTimes.sum ∧
  ∀ d ∈ s.processingTimes, 0 < d

/-- Helper: folding updateProcessingStats over a list of strictly positive
durations appends exactly that list and accumulates its sum and length. -/
theorem foldl_updateProcessingStats_all_pos (D : List Int) :
    ∀ s : Stats, (∀ d ∈ D, 0 < d) →
      D.foldl updateProcessingStats s =
        { processingTimes := s.processingTimes ++ D,
          totalProcessingTime := s.totalProcessingTime + D.sum,
          utteranceCount := s.utteranceCount + D.length } := by
  induction D with
  | nil => intro s _; cases s; simp
  | cons a t ih =>
      intro s h
      have ha : 0 < a := h a (List.mem_cons_self a t)
      have ht : ∀ d ∈ t, 0 < d := fun d hd => h d (List.mem_cons_of_mem a hd)
      simp only [List.foldl_cons]
      rw [ih _ ht]
      simp [updateProcessingStats, ha, add_assoc, add_comm, add_left_comm]

/-- Helper: updateProcessingStats preserves the LatencyStats invariant for
an arbitrary (possibly nonpositive) duration. -/
theorem updateProcessingStats_preserves_invariant (s : Stats) (d : Int)
    (h : StatsInvariant s) : StatsInvariant (updateProcessingStats s d) := by
  obtain ⟨hc, hs, hp⟩ := h
  unfold updateProcessingStats
  by_cases hd : 0 < d
  · simp only [if_pos hd]
    refine ⟨?_, ?_, ?_⟩
    · simp [hc]
    · simp [hs]
    · intro x hx
      rcases List.mem_append.mp hx with hx | hx
      · exact hp x hx
      · simp only [List.mem_singleton] at hx
        exact hx ▸ hd
  · simp only [if_neg hd]
    exact ⟨hc, hs, hp⟩

/-- C1: for every sequence D of strictly positive recorded durations,
getAverageProcessingTime after recording D is the arithmetic mean
sum D / length D, and it is 0 when D is empty; the count-zero guard means
the division sum / count is only taken with a nonzero count. -/
theorem getAverageProcessingTime_mean (D : List Int) (h : ∀ d ∈ D, 0 < d) :
    getAverageProcessingTime (recordAll D) =
      if D.length = 0 then 0 else (D.sum : Rat) / (D.length : Rat) := by
  unfold recordAll
  rw [foldl_updateProcessingStats_all_pos D Stats.init h]
  simp [getAverageProcessingTime, Stats.init]

/-- Witness for C1 at D = [100, 300]: hypotheses hold and the average is
the arithmetic mean of the two durations. -/
theorem getAverageProcessingTime_mean_witness :
    (∀ d ∈ ([100, 300] : List Int), 0 < d) ∧
    getAverageProcessingTime (recordAll [100, 300]) =
      (if ([100, 300] : List Int).length = 0 then 0
       else ((([100, 300] : List Int).sum : Rat) /
             ((([100, 300] : List Int).length : Nat) : Rat))) :=
  ⟨by decide, getAverageProcessingTime_mean [100, 300] (by decide)⟩

/-- C3: after every sequence of record operations starting from the
constructor state, the invariant holds: utteranceCount equals the length of
processingTimes, totalProcessingTime equals its sum, and every recorded
element is strictly positive. -/
theorem statsInvariant_after_any_sequence (ds : List Int) :
    StatsInvariant (ds.foldl updateProcessingStats Stats.init) := by
  induction ds using List.reverseRecOn with
  | nil =>
      refine ⟨rfl, rfl, ?_⟩
      intro d hd
      simp [Stats.init] at hd
  | append_singleton t a ih =>
      rw [List.foldl_append]
      exact updateProcessingStats_preserves_invariant _ a ih

/-- C4: recording a duration d that is nonpositive leaves the statistics
state completely unchanged, and the scenario of recording 100, 0, 300
yields a recorded count of 2 and an average of 200. -/
theorem updateProcessingStats_nonpos_noop (s : Stats) (d : Int) (h : d ≤ 0) :
    updateProcessingStats s d = s ∧
    (recordAll [100, 0, 300]).utteranceCount = 2 ∧
    getAverageProcessingTime (recordAll [100, 0, 300]) = 200 := by
  refine ⟨?_, by decide, ?_⟩
  · unfold updateProcessingStats
    rw [if_neg (by omega)]
  · have : recordAll [100, 0, 300] =
        { processingTimes := [100, 300], totalProcessingTime := 400,
          utteranceCount := 2 } := by decide
    rw [this]
    norm_num [getAverageProcessingTime]

/-- Witness for C4 at s = Stats.init, d = 0. -/
theorem updateProcessingStats_nonpos_noop_witness :
    (0 : Int) ≤ 0 ∧
    (updateProcessingStats Stats.init 0 = Stats.init ∧
     (recordAll [100, 0, 300]).utteranceCount = 2 ∧
     getAverageProcessingTime (recordAll [100, 0, 300]) = 200) :=
  ⟨by decide, updateProcessingStats_nonpos_noop Stats.init 0 (by decide)⟩

/-- One alternative of a transcript event; only the transcript text field
is consumed by the handlers. -/
structure Alternative where
  transcript : String
deriving Repr, DecidableEq

/-- The consumed shape of a Deepgram transcript event:
transcription.channel?.alternatives (none models a missing channel or a
missing alternatives field) and the is_final flag. -/
structure Transcription where
  alternatives : Option (List Alternative)
  is_final : Bool
deriving Repr, DecidableEq

/-- JavaScript truthiness test for the startTime field: the guard
(!this.startTime) is true when startTime is null or 0. -/
def isUnset : Option Int → Bool
  | none => true
  | some t => t == 0

/-- The text the handler extracts, following the guard
(alternatives && alternatives[0]?.transcript): the first alternative must
exist and its transcript must be truthy (a nonempty string). -/
def textOf (ev : Transcription) : Option String :=
  match ev.alternatives with
  | none => none
  | some alts =>
    match alts.head? with
    | none => none
    | some a => if a.transcript = "" then none else some a.transcript

/-- One presenter output record.  Carriage-return line control is
presentation only; each record is one rendered element. -/
inductive OutLine where
  | interim (label text : String)
  | finalLine (label text : String)
  | procTime (ms : Int)
  | averageLine (avg : Rat)
  | separator
  | summary (avg : Rat)
deriving Repr, DecidableEq

/-- The per-utterance timing and statistics state read and written by the
Transcript handler: this.startTime (none models null), the statistics
fields, and the presenter output so far. -/
structure TState where
  startTime : Option Int
  stats : Stats
  output : List OutLine
deriving Repr, DecidableEq

/-- LiveTranscriptionEvents.Transcript handler of indexhighsamp.js
(lines 97-128).  now is the Date.now value during this synchronous
handler invocation.  Steps, in source order: set startTime when falsy;
extract the text, ignoring the event when absent; compute
processingTime = now - startTime; on interim render a Listening line; on
final update the statistics when processingTime > 0, render the
ULTRA-LOW line, the processing-time and average lines when
processingTime > 0 (the average computed from the updated statistics),
a separator, and reset startTime to null. -/
def transcriptHandlerHigh (now : Int) (ev : Transcription) (s : TState) :
    TState :=
  let s1 := if isUnset s.startTime then { s with startTime := some now }
            else s
  match textOf ev with
  | none => s1
  | some text =>
    let processingTime := now - s1.startTime.getD 0
    if ev.is_final = false then
      { s1 with output := s1.output ++ [OutLine.interim ("Listening: ") text] }
    else
      let stats2 := if 0 < processingTime then
                      updateProcessingStats s1.stats processingTime
                    else s1.stats
      let timing := if 0 < processingTime then
                      [OutLine.procTime processingTime,
                       OutLine.averageLine (getAverageProcessingTime stats2)]
                    else []
      { startTime := none,
        stats := stats2,
        output := s1.output ++ [OutLine.finalLine ("ULTRA-LOW: ") text]
                  ++ timing ++ [OutLine.separator] }

/-- LiveTranscriptionEvents.Transcript handler of indexbefore.js
(lines 70-93).  Same startTime and text-extraction steps; on interim the
same Listening line; on final it renders the FINAL line, always renders
the processing-time line, renders a separator and resets startTime — it
maintains no statistics and renders no average. -/
def transcriptHandlerBefore (now : Int) (ev : Transcription) (s : TState) :
    TState :=
  let s1 := if isUnset s.startTime then { s with startTime := some now }
            else s
  match textOf ev with
  | none => s1
  | some text =>
    let processingTime := now - s1.startTime.getD 0
    if ev.is_final = false then
      { s1 with output := s1.output ++ [OutLine.interim ("Listening: ") text] }
    else
      { startTime := none,
        stats := s1.stats,
        output := s1.output ++ [OutLine.finalLine ("FINAL: ") text,
                                OutLine.procTime processingTime,
                                OutLine.separator] }

/-- Session resource state for teardown analysis: whether micStream and
connection are non-null, the statistics, and counters for the observable
effects — mic.stopRecording calls, connection.finish calls, and emissions
of the Final Average Processing Time summary line. -/
structure SessionState where
  micStream : Bool
  connection : Bool
  stats : Stats
  micStopCalls : Nat
  finishCalls : Nat
  summaryEmits : Nat
deriving Repr, DecidableEq

/-- Constructor state (indexhighsamp.js lines 15, 31): micStream and
connection both null, no effects performed yet. -/
def SessionState.init : SessionState :=
  { micStream := false, connection := false, stats := Stats.init,
    micStopCalls := 0, finishCalls := 0, summaryEmits := 0 }

/-- The synchronous effect of start() reaching line 63: this.connection is
assigned the live channel object as soon as deepgram.listen.live returns,
before any ready event fires. -/
def startConnected (s : SessionState) : SessionState :=
  { s with connection := true }

/-- SpeechToText.stop of indexhighsamp.js (lines 154-166): when micStream
is non-null, call mic.stopRecording and null micStream; when connection is
non-null, call connection.finish (connection is never nulled); when
utteranceCount > 0, print the Final Average Processing Time summary. -/
def stop (s : SessionState) : SessionState :=
  let s1 := if s.micStream then
              { s with micStopCalls := s.micStopCalls + 1, micStream := false }
            else s
  let s2 := if s1.connection then { s1 with finishCalls := s1.finishCalls + 1 }
            else s1
  if 0 < s2.stats.utteranceCount then
    { s2 with summaryEmits := s2.summaryEmits + 1 }
  else s2

/-- SpeechToText.stop of indexbefore.js (lines 116-124): the same guarded
mic and connection releases, with no summary. -/
def stopBefore (s : SessionState) : SessionState :=
  let s1 := if s.micStream then
              { s with micStopCalls := s.micStopCalls + 1, micStream := false }
            else s
  if s1.connection then { s1 with finishCalls := s1.finishCalls + 1 } else s1

/-- LiveTranscriptionEvents.Close handler of indexhighsamp.js
(lines 136-142): when utteranceCount > 0 print the Final Average
Processing Time summary, then call this.stop(). -/
def closeHandler (s : SessionState) : SessionState :=
  let s1 := if 0 < s.stats.utteranceCount then
              { s with summaryEmits := s.summaryEmits + 1 }
            else s
  stop s1

/-- micStream data handler (indexhighsamp.js lines 84-88, identical in
indexbefore.js lines 57-61): send the chunk only when this.connection is
non-null and connection.getReadyState() is 1, both read at send time;
otherwise the chunk is discarded.  The sent list is the sequence of
chunks passed to connection.send; no other storage exists, so an unsent
chunk is dropped, never buffered. -/
def dataHandler (connection : Bool) (readyState : Nat) (sent : List Nat)
    (data : Nat) : List Nat :=
  if connection && readyState == 1 then sent ++ [data] else sent

/-- Processing a whole capture run: each event is the triple of the
connection presence and readyState observed at send time and the chunk
delivered; the result is every chunk passed to connection.send, in
order. -/
def runChunks (events : List (Bool × Nat × Nat)) : List Nat :=
  events.foldl (fun sent e => dataHandler e.1 e.2.1 sent e.2.2) []

/-- Observable effects of a start() invocation (indexhighsamp.js
lines 60-147): one deepgram.listen.live attempt; when it throws, the
catch (lines 144-146) reports the error once and returns — the Open
handler never fires, so mic.startRecording is never called, and no
process.exit call exists on this path (exitCode none means the handler
makes no exit call).  When it returns, connection is assigned and capture
starts only later, on the Open event. -/
structure StartEffects where
  connectionSet : Bool
  errorsReported : Nat
  captureStarted : Bool
  openAttempts : Nat
  exitCode : Option Int
deriving Repr, DecidableEq

/-- The effects of start() as a function of whether deepgram.listen.live
throws. -/
def startEffects (openThrows : Bool) : StartEffects :=
  if openThrows then
    { connectionSet := false, errorsReported := 1, captureStarted := false,
      openAttempts := 1, exitCode := none }
  else
    { connectionSet := true, errorsReported := 0, captureStarted := false,
      openAttempts := 1, exitCode := none }

/-- The processingTime computed by the Transcript handlers: now minus the
value of startTime after the truthiness-guarded assignment (0 whenever
startTime was unset, since it is then anchored to now itself). -/
def elapsedAt (now : Int) (startTime : Option Int) : Int :=
  now - (if isUnset startTime then now else startTime.getD 0)

/-- C2 counterexample: from a session with both handles live and one
recorded utterance, a Close event followed by an external interrupt
(closeHandler then stop) emits the Final Average summary three times, not
once — once in the Close handler and once in each stop call — and invokes
connection.finish twice, because connection is never nulled.  Only the
microphone release is one-shot. -/
theorem close_then_interrupt_triple_emit :
    (stop (closeHandler
        { micStream := true, connection := true, stats := recordAll [100],
          micStopCalls := 0, finishCalls := 0,
          summaryEmits := 0 })).summaryEmits = 3 ∧
    (stop (closeHandler
        { micStream := true, connection := true, stats := recordAll [100],
          micStopCalls := 0, finishCalls := 0,
          summaryEmits := 0 })).finishCalls = 2 ∧
    ¬ (stop (closeHandler
        { micStream := true, connection := true, stats := recordAll [100],
          micStopCalls := 0, finishCalls := 0,
          summaryEmits := 0 })).summaryEmits = 1 := by
  decide

/-- C2 amended: for a session with both handles live and at least one
recorded utterance, a Close event followed by an interrupt-triggered stop
releases the microphone exactly once (the micStream guard is one-shot),
but calls connection.finish twice and emits the summary three times. -/
theorem teardown_twice_effects (s : SessionState) (hm : s.micStream = true)
    (hc : s.connection = true) (hu : 0 < s.stats.utteranceCount) :
    (stop (closeHandler s)).micStopCalls = s.micStopCalls + 1 ∧
    (stop (closeHandler s)).micStream = false ∧
    (stop (closeHandler s)).finishCalls = s.finishCalls + 2 ∧
    (stop (closeHandler s)).summaryEmits = s.summaryEmits + 3 := by
  simp [closeHandler, stop, hm, hc, hu]

/-- Witness for C2 amended at a session with one recorded utterance. -/
theorem teardown_twice_effects_witness :
    ({ micStream := true, connection := true, stats := recordAll [100],
       micStopCalls := 0, finishCalls := 0,
       summaryEmits := 0 } : SessionState).micStream = true ∧
    ((stop (closeHandler
        { micStream := true, connection := true, stats := recordAll [100],
          micStopCalls := 0, finishCalls := 0,
          summaryEmits := 0 })).micStopCalls = 0 + 1 ∧
     (stop (closeHandler
        { micStream := true, connection := true, stats := recordAll [100],
          micStopCalls := 0, finishCalls := 0,
          summaryEmits := 0 })).micStream = false ∧
     (stop (closeHandler
        { micStream := true, connection := true, stats := recordAll [100],
          micStopCalls := 0, finishCalls := 0,
          summaryEmits := 0 })).finishCalls = 0 + 2 ∧
     (stop (closeHandler
        { micStream := true, connection := true, stats := recordAll [100],
          micStopCalls := 0, finishCalls := 0,
          summaryEmits := 0 })).summaryEmits = 0 + 3) :=
  ⟨rfl, teardown_twice_effects _ rfl rfl (by decide)⟩

/-- C5 counterexample: a transcript event whose alternatives list is empty
does change session state when startTime is unset — the handler assigns
startTime before the text check, so startTime goes from none to now. -/
theorem transcript_no_text_changes_startTime :
    (transcriptHandlerHigh 5 { alternatives := some [], is_final := false }
        { startTime := none, stats := Stats.init,
          output := [] }).startTime = some 5 ∧
    ¬ (transcriptHandlerHigh 5 { alternatives := some [], is_final := false }
        { startTime := none, stats := Stats.init,
          output := [] }).startTime = none := by
  decide

/-- C5 amended: a transcript event with no extractable text (empty
alternatives or missing text) produces no presenter output and leaves the
statistics unchanged, but startTime, assigned before the text check, is
set to now when it was unset (and kept otherwise). -/
theorem transcript_no_text_effects (now : Int) (ev : Transcription)
    (s : TState) (h : textOf ev = none) :
    (transcriptHandlerHigh now ev s).output = s.output ∧
    (transcriptHandlerHigh now ev s).stats = s.stats ∧
    (transcriptHandlerHigh now ev s).startTime =
      (if isUnset s.startTime then some now else s.startTime) := by
  unfold transcriptHandlerHigh
  rw [h]
  by_cases hu : isUnset s.startTime <;> simp [hu]

/-- Witness for C5 amended: an event with a missing channel, applied to a
state whose startTime is already set. -/
theorem transcript_no_text_effects_witness :
    textOf { alternatives := none, is_final := true } = none ∧
    ((transcriptHandlerHigh 7 { alternatives := none, is_final := true }
        { startTime := some 3, stats := Stats.init, output := [] }).output
       = [] ∧
     (transcriptHandlerHigh 7 { alternatives := none, is_final := true }
        { startTime := some 3, stats := Stats.init, output := [] }).stats
       = Stats.init ∧
     (transcriptHandlerHigh 7 { alternatives := none, is_final := true }
        { startTime := some 3, stats := Stats.init, output := [] }).startTime
       = (if isUnset (some 3) then some 7 else some 3)) :=
  ⟨rfl, transcript_no_text_effects 7 _ _ rfl⟩

/-- C6: on a final transcript event with text present, the handler records
the elapsed processing time into the statistics exactly when it is
positive, renders the final line, and resets startTime to null; an interim
event performs no statistics update. -/
theorem transcript_final_records_iff_pos (now : Int) (ev : Transcription)
    (s : TState) (text : String) (h : textOf ev = some text) :
    (ev.is_final = true →
       (0 < elapsedAt now s.startTime →
          (transcriptHandlerHigh now ev s).stats.processingTimes =
            s.stats.processingTimes ++ [elapsedAt now s.startTime]) ∧
       (elapsedAt now s.startTime ≤ 0 →
          (transcriptHandlerHigh now ev s).stats = s.stats) ∧
       (transcriptHandlerHigh now ev s).startTime = none ∧
       OutLine.finalLine ("ULTRA-LOW: ") text ∈
         (transcriptHandlerHigh now ev s).output) ∧
    (ev.is_final = false →
       (transcriptHandlerHigh now ev s).stats = s.stats ∧
       (transcriptHandlerHigh now ev s).startTime =
         (if isUnset s.startTime then some now else s.startTime)) := by
  constructor
  · intro hf
    unfold transcriptHandlerHigh
    rw [h]
    by_cases hu : isUnset s.startTime <;>
      by_cases hp : 0 < elapsedAt now s.startTime <;>
        simp_all [elapsedAt, updateProcessingStats, hf]
  · intro hf
    unfold transcriptHandlerHigh
    rw [h]
    by_cases hu : isUnset s.startTime <;> simp_all [hf]

/-- Witness for C6: a final event with text, startTime anchored 60ms
before now. -/
theorem transcript_final_records_iff_pos_witness :
    textOf { alternatives := some [Alternative.mk ("hi")], is_final := true }
      = some ("hi") ∧
    ((({ alternatives := some [Alternative.mk ("hi")],
         is_final := true } : Transcription).is_final = true →
       (0 < elapsedAt 100 (some 40) →
          (transcriptHandlerHigh 100
            { alternatives := some [Alternative.mk ("hi")], is_final := true }
            { startTime := some 40, stats := Stats.init,
              output := [] }).stats.processingTimes =
            Stats.init.processingTimes ++ [elapsedAt 100 (some 40)]) ∧
       (elapsedAt 100 (some 40) ≤ 0 →
          (transcriptHandlerHigh 100
            { alternatives := some [Alternative.mk ("hi")], is_final := true }
            { startTime := some 40, stats := Stats.init,
              output := [] }).stats = Stats.init) ∧
       (transcriptHandlerHigh 100
            { alternatives := some [Alternative.mk ("hi")], is_final := true }
            { startTime := some 40, stats := Stats.init,
              output := [] }).startTime = none ∧
       OutLine.finalLine ("ULTRA-LOW: ") ("hi") ∈
         (transcriptHandlerHigh 100
            { alternatives := some [Alternative.mk ("hi")], is_final := true }
            { startTime := some 40, stats := Stats.init,
              output := [] }).output) ∧
     (({ alternatives := some [Alternative.mk ("hi")],
         is_final := true } : Transcription).is_final = false →
       (transcriptHandlerHigh 100
            { alternatives := some [Alternative.mk ("hi")], is_final := true }
            { startTime := some 40, stats := Stats.init,
              output := [] }).stats = Stats.init ∧
       (transcriptHandlerHigh 100
            { alternatives := some [Alternative.mk ("hi")], is_final := true }
            { startTime := some 40, stats := Stats.init,
              output := [] }).startTime =
         (if isUnset (some 40) then some 100 else some 40))) :=
  ⟨rfl, transcript_final_records_iff_pos 100
    { alternatives := some [Alternative.mk ("hi")], is_final := true }
    { startTime := some 40, stats := Stats.init, output := [] } ("hi") rfl⟩

/-- Helper: folding the data handler from any accumulator appends exactly
the chunks whose writability condition held at send time. -/
theorem foldl_dataHandler (events : List (Bool × Nat × Nat)) :
    ∀ acc : List Nat,
      events.foldl (fun sent e => dataHandler e.1 e.2.1 sent e.2.2) acc =
        acc ++ (events.filter (fun e => e.1 && e.2.1 == 1)).map
          (fun e => e.2.2) := by
  induction events with
  | nil => intro acc; simp
  | cons e t ih =>
      intro acc
      rcases e with ⟨c, r, d⟩
      rw [List.foldl_cons, ih]
      by_cases hc : c = true ∧ r = 1
      · obtain ⟨h1, h2⟩ := hc
        subst h1
        subst h2
        simp [dataHandler, List.filter_cons]
      · have hb : (c && r == 1) = false := by
          cases c <;> simp_all
        simp [dataHandler, hb, List.filter_cons]

/-- C7: over any capture run, the chunks passed to connection.send are
exactly those delivered while the connection existed and its ready state
was 1 at send time, in order; every other chunk is absent from the
result — dropped, never queued (the sent list is the only storage the
handler touches). -/
theorem runChunks_sends_iff_writable (events : List (Bool × Nat × Nat)) :
    runChunks events =
      (events.filter (fun e => e.1 && e.2.1 == 1)).map (fun e => e.2.2) := by
  unfold runChunks
  rw [foldl_dataHandler]
  simp

/-- C8 counterexample: when opening the channel throws, the catch handler
reports the error but makes no process.exit call at all — exitCode stays
none, refuting the claimed exit with a non-zero status. -/
theorem startFailure_no_nonzero_exit :
    (startEffects true).exitCode = none ∧
    ¬ (startEffects true).exitCode = some 1 := by
  decide

/-- C8 amended: when opening the channel fails, the startup error is
reported exactly once, capture is never started (Listening is never
entered), exactly one open attempt is made (no retry), but the process is
not exited by the handler: no exit call, with any status, occurs on this
path. -/
theorem startFailure_effects :
    (startEffects true).errorsReported = 1 ∧
    (startEffects true).openAttempts = 1 ∧
    (startEffects true).captureStarted = false ∧
    (startEffects true).connectionSet = false ∧
    (startEffects true).exitCode = none := by
  decide

/-- C9 counterexample: on the same final transcript event from the same
state, the standard variant leaves the statistics untouched while the
ultra-low-latency variant records the elapsed time; and on the same
session state with one recorded utterance, the standard stop emits no
summary while the ultra-low-latency stop emits one.  The variants differ
in latency tracking and teardown, not only in SessionConfig and label. -/
theorem variants_differ_beyond_config_and_label :
    ((transcriptHandlerBefore 100
        { alternatives := some [Alternative.mk ("hi")], is_final := true }
        { startTime := some 40, stats := Stats.init, output := [] }).stats ≠
     (transcriptHandlerHigh 100
        { alternatives := some [Alternative.mk ("hi")], is_final := true }
        { startTime := some 40, stats := Stats.init, output := [] }).stats) ∧
    ((stopBefore
        { micStream := true, connection := true, stats := recordAll [100],
          micStopCalls := 0, finishCalls := 0,
          summaryEmits := 0 }).summaryEmits ≠
     (stop
        { micStream := true, connection := true, stats := recordAll [100],
          micStopCalls := 0, finishCalls := 0,
          summaryEmits := 0 }).summaryEmits) := by
  refine ⟨?_, by decide⟩
  intro h
  have := congrArg Stats.utteranceCount h
  revert this
  decide

/-- C9 amended: the two variants coincide on the shared controller core —
identical handling of interim events and of events with no extractable
text, identical startTime discipline, and identical microphone and
channel release in stop — while the standard variant never updates the
statistics; they are not equivalent up to SessionConfig and label alone,
since the ultra-low-latency variant alone records latency, prints
averages, and emits a teardown summary. -/
theorem variants_common_behavior (now : Int) (ev : Transcription)
    (s : TState) (st : SessionState) :
    (ev.is_final = false →
       transcriptHandlerBefore now ev s = transcriptHandlerHigh now ev s) ∧
    (textOf ev = none →
       transcriptHandlerBefore now ev s = transcriptHandlerHigh now ev s) ∧
    (transcriptHandlerBefore now ev s).startTime =
      (transcriptHandlerHigh now ev s).startTime ∧
    (transcriptHandlerBefore now ev s).stats = s.stats ∧
    ((stopBefore st).micStream = (stop st).micStream ∧
     (stopBefore st).micStopCalls = (stop st).micStopCalls ∧
     (stopBefore st).finishCalls = (stop st).finishCalls) := by
  refine ⟨?_, ?_, ?_, ?_, ?_⟩
  · intro hf
    unfold transcriptHandlerBefore transcriptHandlerHigh
    cases hx : textOf ev with
    | none => rfl
    | some text => simp [hf]
  · intro hx
    unfold transcriptHandlerBefore transcriptHandlerHigh
    rw [hx]
  · unfold transcriptHandlerBefore transcriptHandlerHigh
    cases hx : textOf ev with
    | none => rfl
    | some text =>
        by_cases hf : ev.is_final = false <;>
          by_cases hu : isUnset s.startTime <;> simp [hf, hu]
  · unfold transcriptHandlerBefore
    cases hx : textOf ev with
    | none => by_cases hu : isUnset s.startTime <;> simp [hu]
    | some text =>
        by_cases hf : ev.is_final = false <;>
          by_cases hu : isUnset s.startTime <;> simp [hf, hu]
  · unfold stop stopBefore
    by_cases hm : st.micStream <;> by_cases hc : st.connection <;>
      by_cases hn : 0 < st.stats.utteranceCount <;> simp [hm, hc, hn]

/-- Witness for C9 amended at a concrete interim event and session
state. -/
theorem variants_common_behavior_witness :
    (({ alternatives := some [Alternative.mk ("hey")],
        is_final := false } : Transcription).is_final = false →
       transcriptHandlerBefore 9
         { alternatives := some [Alternative.mk ("hey")], is_final := false }
         { startTime := none, stats := Stats.init, output := [] } =
       transcriptHandlerHigh 9
         { alternatives := some [Alternative.mk ("hey")], is_final := false }
         { startTime := none, stats := Stats.init, output := [] }) ∧
    (textOf { alternatives := some [Alternative.mk ("hey")],
              is_final := false } = none →
       transcriptHandlerBefore 9
         { alternatives := some [Alternative.mk ("hey")], is_final := false }
         { startTime := none, stats := Stats.init, output := [] } =
       transcriptHandlerHigh 9
         { alternatives := some [Alternative.mk ("hey")], is_final := false }
         { startTime := none, stats := Stats.init, output := [] }) ∧
    (transcriptHandlerBefore 9
         { alternatives := some [Alternative.mk ("hey")], is_final := false }
         { startTime := none, stats := Stats.init,
           output := [] }).startTime =
      (transcriptHandlerHigh 9
         { alternatives := some [Alternative.mk ("hey")], is_final := false }
         { startTime := none, stats := Stats.init,
           output := [] }).startTime ∧
    (transcriptHandlerBefore 9
         { alternatives := some [Alternative.mk ("hey")], is_final := false }
         { startTime := none, stats := Stats.init,
           output := [] }).stats = Stats.init ∧
    ((stopBefore
        { micStream := true, connection := false, stats := Stats.init,
          micStopCalls := 0, finishCalls := 0,
          summaryEmits := 0 }).micStream =
     (stop
        { micStream := true, connection := false, stats := Stats.init,
          micStopCalls := 0, finishCalls := 0,
          summaryEmits := 0 }).micStream ∧
     (stopBefore
        { micStream := true, connection := false, stats := Stats.init,
          micStopCalls := 0, finishCalls := 0,
          summaryEmits := 0 }).micStopCalls =
     (stop
        { micStream := true, connection := false, stats := Stats.init,
          micStopCalls := 0, finishCalls := 0,
          summaryEmits := 0 }).micStopCalls ∧
     (stopBefore
        { micStream := true, connection := false, stats := Stats.init,
          micStopCalls := 0, finishCalls := 0,
          summaryEmits := 0 }).finishCalls =
     (stop
        { micStream := true, connection := false, stats := Stats.init,
          micStopCalls := 0, finishCalls := 0,
          summaryEmits := 0 }).finishCalls) :=
  variants_common_behavior 9
    { alternatives := some [Alternative.mk ("hey")], is_final := false }
    { startTime := none, stats := Stats.init, output := [] }
    { micStream := true, connection := false, stats := Stats.init,
      micStopCalls := 0, finishCalls := 0, summaryEmits := 0 }

/-- C10 counterexample: once start() has run, connection is already
non-null even though the ready event never fired, and stop() then invokes
connection.finish — so the claim that both handles are null and nothing
is released does not hold for the started-but-never-ready session. -/
theorem stop_after_start_calls_finish :
    (startConnected SessionState.init).connection = true ∧
    (stop (startConnected SessionState.init)).finishCalls = 1 := by
  decide

/-- C10 amended: calling stop() before capture ever started is safe — the
microphone guard sees a null micStream and performs no release, no
summary is emitted since no utterance was recorded, and no absent handle
is dereferenced; when start() was never invoked, connection is also null
and stop is a complete no-op, while if start() ran without reaching
ready, connection is non-null and stop invokes connection.finish once. -/
theorem stop_before_capture_safe (s : SessionState)
    (hm : s.micStream = false) (hu : s.stats.utteranceCount = 0) :
    stop SessionState.init = SessionState.init ∧
    (stop s).micStopCalls = s.micStopCalls ∧
    (stop s).summaryEmits = s.summaryEmits ∧
    (s.connection = false → stop s = s) ∧
    (s.connection = true →
       stop s = { s with finishCalls := s.finishCalls + 1 }) := by
  refine ⟨by decide, ?_, ?_, ?_, ?_⟩ <;>
    (unfold stop
     by_cases hc : s.connection <;> simp [hm, hu, hc])

/-- Witness for C10 amended at the started-but-never-ready session. -/
theorem stop_before_capture_safe_witness :
    (startConnected SessionState.init).micStream = false ∧
    (stop SessionState.init = SessionState.init ∧
     (stop (startConnected SessionState.init)).micStopCalls =
       (startConnected SessionState.init).micStopCalls ∧
     (stop (startConnected SessionState.init)).summaryEmits =
       (startConnected SessionState.init).summaryEmits ∧
     ((startConnected SessionState.init).connection = false →
        stop (startConnected SessionState.init) =
          startConnected SessionState.init) ∧
     ((startConnected SessionState.init).connection = true →
        stop (startConnected SessionState.init) =
          { startConnected SessionState.init with
              finishCalls :=
                (startConnected SessionState.init).finishCalls + 1 })) :=
  ⟨rfl, stop_before_capture_safe (startConnected SessionState.init) rfl rfl⟩

end Beambell
